import Mathlib

/-!
Verification of the SBox CAN simulator (sbox-sim.py, sbox_can_messages.py,
other.py): a shallow embedding of the contactor state machine, the
precharge voltage model, the message-rate counter, the frame registry,
the liveness counter field, and the telemetry byte packing.

Python floats entered through the operator interface are modelled as
rationals; wall-clock instants are modelled as a rational `now` parameter
(for `datetime.datetime.now()`) and an integer `sec` parameter (for
`int(time.time())`), both passed explicitly to the handlers that read
the clock.
-/

/-- Constant from sbox-sim.py: `PRECHARGE_RESISTOR = 300` (Ohms). -/
def PRECHARGE_RESISTOR : ℚ := 300

/-- Constant from sbox-sim.py: `INVERTER_CAPACITANCE = (550+68+68) * 1e-6`. -/
def INVERTER_CAPACITANCE : ℚ := (550 + 68 + 68) * (1 / 1000000)

/-- Constant from sbox-sim.py: `PRECHARGE_RC = PRECHARGE_RESISTOR * INVERTER_CAPACITANCE`. -/
def PRECHARGE_RC : ℚ := PRECHARGE_RESISTOR * INVERTER_CAPACITANCE

/-- A CAN message: arbitration identifier and payload bytes.
python-can fills `dlc` from the payload length. -/
structure CanMsg where
  arbitration_id : Nat
  data : List Nat
deriving DecidableEq

/-- `msg.dlc`: the data length code, equal to the payload length. -/
def CanMsg.dlc (m : CanMsg) : Nat := m.data.length

/-- The mutable fields of the `SBox` object (sbox-sim.py, `SBox.__init__`).
`voltage`/`current` are the operator-set source parameters; `pch_start`
models `self._pch_start : Optional[datetime.datetime]` as an optional
rational instant. -/
structure SBoxState where
  voltage : ℚ
  current : ℚ
  msgs_per_sec : Nat
  pos_contactor_closed : Bool
  neg_contactor_closed : Bool
  pch_contactor_closed : Bool
  contactor_setup : Bool
  new_msgs : Nat
  last_sec : Int
  last_inverter_v : ℚ
  pch_start : Option ℚ
deriving DecidableEq

/-- The state set up by `SBox.__init__`: voltage 350, current 0, all
contactors open, setup disabled, counters zeroed, no precharge start. -/
def initSBox : SBoxState :=
  { voltage := 350, current := 0, msgs_per_sec := 0,
    pos_contactor_closed := false, neg_contactor_closed := false,
    pch_contactor_closed := false, contactor_setup := false,
    new_msgs := 0, last_sec := 0, last_inverter_v := 0, pch_start := none }

/-- Diagnostics printed by the handlers (stdout side effects). -/
inductive Diag where
  | unrecognisedContactorControl (cmd : Nat)
deriving DecidableEq

/-- `SBox.on_control_contactors` (sbox-sim.py lines 112-164): process a
ControlContactors frame.  Frames whose dlc is not 4 are ignored; otherwise
the first data byte selects the contactor configuration.  `now` is the
value `datetime.datetime.now()` would return inside the 0xA6 branch. -/
def on_control_contactors (st : SBoxState) (m : CanMsg) (now : ℚ) :
    SBoxState × List Diag :=
  if m.dlc ≠ 4 then (st, [])
  else
    match m.data.headD 0 with
    | 0x00 =>
      ({ st with pos_contactor_closed := false, neg_contactor_closed := false,
                 pch_contactor_closed := false, pch_start := none }, [])
    | 0xA6 =>
      let start :=
        if (!st.pos_contactor_closed) ∧ (!st.neg_contactor_closed) ∧
            (!st.pch_contactor_closed) then
          some now
        else st.pch_start
      ({ st with pos_contactor_closed := false, neg_contactor_closed := true,
                 pch_contactor_closed := true, pch_start := start }, [])
    | 0xAA =>
      ({ st with pos_contactor_closed := true, neg_contactor_closed := true,
                 pch_contactor_closed := true, pch_start := none }, [])
    | 0x86 =>
      ({ st with pos_contactor_closed := false, neg_contactor_closed := false,
                 pch_contactor_closed := true, pch_start := none }, [])
    | 0x0A =>
      ({ st with pos_contactor_closed := true, neg_contactor_closed := false,
                 pch_contactor_closed := false, pch_start := none }, [])
    | 0x62 =>
      ({ st with pos_contactor_closed := false, neg_contactor_closed := true,
                 pch_contactor_closed := true, pch_start := none }, [])
    | c =>
      ({ st with pos_contactor_closed := false, neg_contactor_closed := false,
                 pch_contactor_closed := false, pch_start := none },
       [Diag.unrecognisedContactorControl c])

/-- `SBox.on_setup_contactors` (sbox-sim.py lines 166-173): recognise the
one known good setup frame; anything else clears the gate. -/
def on_setup_contactors (st : SBoxState) (m : CanMsg) : SBoxState :=
  if m.dlc = 4 ∧ m.data = [0xFF, 0xFE, 0xFF, 0xFF] then
    { st with contactor_setup := true }
  else
    { st with contactor_setup := false }

/-- The message-rate bookkeeping at the top of `SBox.on_message`
(sbox-sim.py lines 97-103): increment `_new_msgs`, then on a change of
observed second publish it into `msgs_per_sec` and reset. -/
def update_msg_rate (st : SBoxState) (sec : Int) : SBoxState :=
  let st1 := { st with new_msgs := st.new_msgs + 1 }
  if sec ≠ st1.last_sec then
    { st1 with msgs_per_sec := st1.new_msgs, new_msgs := 0, last_sec := sec }
  else st1

/-- `SBox.on_message` (sbox-sim.py lines 90-110): rate bookkeeping, then
dispatch on the arbitration identifier. -/
def on_message (st : SBoxState) (m : CanMsg) (now : ℚ) (sec : Int) :
    SBoxState × List Diag :=
  let st1 := update_msg_rate st sec
  match m.arbitration_id with
  | 0x100 => on_control_contactors st1 m now
  | 0x300 => (on_setup_contactors st1 m, [])
  | _ => (st1, [])

/-- Fold `on_message` over a list of (message, now, sec) arrival events. -/
def run_messages (st : SBoxState) (evs : List (CanMsg × ℚ × Int)) : SBoxState :=
  evs.foldl (fun s e => (on_message s e.1 e.2.1 e.2.2).1) st

/-- Number of arrival events whose observed second is `s`. -/
def countInSec (evs : List (CanMsg × ℚ × Int)) (s : Int) : Nat :=
  evs.countP (fun e => e.2.2 = s)

/-- A periodic TX message, as registered by `SBox.__init__`: arbitration
identifier, initial payload bytes, and rate in Hz. -/
structure PeriodicMessage where
  arbitration_id : Nat
  data : List Nat
  rate_hz : Nat
deriving DecidableEq

/-- The fatal startup error taxonomy for frame registration. -/
inductive RegError where
  | DuplicateIdentifier
deriving DecidableEq

/-- One step of the registration loop in `SBox.__init__` (sbox-sim.py
lines 64-70): `assert m.arbitration_id not in self.tx_messages` (a failed
assertion is the fatal DuplicateIdentifier error), then
`self.tx_messages[m.arbitration_id] = m`.  The dict is modelled as an
insertion-ordered association list. -/
def register (reg : List (Nat × PeriodicMessage)) (m : PeriodicMessage) :
    Except RegError (List (Nat × PeriodicMessage)) :=
  if reg.any (fun p => p.1 = m.arbitration_id) then
    Except.error RegError.DuplicateIdentifier
  else
    Except.ok (reg ++ [(m.arbitration_id, m)])

/-- Lookup in the registry by arbitration identifier. -/
def regLookup (reg : List (Nat × PeriodicMessage)) (id : Nat) :
    Option PeriodicMessage :=
  (reg.find? (fun p => p.1 = id)).map (fun p => p.2)

/-- Python `int()` truncation toward zero of a rational. -/
def pytrunc (q : ℚ) : Int := if 0 ≤ q then ⌊q⌋ else ⌈q⌉

/-- `struct.pack("<i", x)`: the 4 little-endian bytes of the 32-bit
two's-complement representation of `x`; raises (returns `none`) when `x`
is out of the signed 32-bit range. -/
def struct_pack_le_i (x : Int) : Option (List Nat) :=
  if -(2 ^ 31) ≤ x ∧ x < 2 ^ 31 then
    some [((x % 2 ^ 32).toNat) % 256,
          ((x % 2 ^ 32).toNat / 256) % 256,
          ((x % 2 ^ 32).toNat / 65536) % 256,
          ((x % 2 ^ 32).toNat / 16777216) % 256]
  else none

/-- Read a 3-byte little-endian value with sign extension (bits 0-23 of
the telemetry payloads hold a signed integer). -/
def read_s24_le (bs : List Nat) : Int :=
  let n := bs.getD 0 0 + 256 * bs.getD 1 0 + 65536 * bs.getD 2 0
  if n < 2 ^ 23 then (n : Int) else (n : Int) - 2 ^ 24

/-- Truncation of an integer to its signed 24-bit value. -/
def trunc24 (x : Int) : Int := (x + 2 ^ 23) % 2 ^ 24 - 2 ^ 23

/-- The packing step `self.data[:3] = struct.pack("<i", v)[:3]` shared by
`Current.update`, `PackVoltage.update` and `PostContactorVoltage.update`
(sbox_can_messages.py): replace the first 3 payload bytes with the low
3 bytes of the 4-byte signed little-endian representation of `x`. -/
def pack3_into (x : Int) (data : List Nat) : Option (List Nat) :=
  (struct_pack_le_i x).map (fun bs => bs.take 3 ++ data.drop 3)

/-- `Current.update`'s value packing: `int(self.sbox.current*1000)` packed
into the first 3 payload bytes. -/
def Current_pack_step (current : ℚ) (data : List Nat) : Option (List Nat) :=
  pack3_into (pytrunc (current * 1000)) data

/-- `PackVoltage.update`'s value packing: `int(self.sbox.voltage*1000)`
packed into the first 3 payload bytes. -/
def PackVoltage_pack_step (voltage : ℚ) (data : List Nat) : Option (List Nat) :=
  pack3_into (pytrunc (voltage * 1000)) data

/-- Modelled from the spec: `message.py` (the `CounterField` class) is not
among the provided sources; this follows spec section 4.1 and the call site
`CounterField(self.data, 5, 0xF0, delta=1, skip=0xF)`.  A counter field owns
the bits of `mask` within the byte at `byte_offset` of a payload. -/
structure CounterField where
  byte_offset : Nat
  mask : Nat
  delta : Nat
  skip : Nat
deriving DecidableEq

/-- Position of the lowest set bit of the (8-bit) mask. -/
def CounterField.shift (f : CounterField) : Nat :=
  (List.range 8).findIdx (fun i => (f.mask >>> i) &&& 1 = 1)

/-- Modelled from the spec: the mask's bit-width (spec section 4.1), the
number of set bits of the (contiguous) mask. -/
def CounterField.width (f : CounterField) : Nat :=
  (List.range 8).countP (fun i => (f.mask >>> i) &&& 1 = 1)

/-- The number of values representable in the mask's bit-width. -/
def CounterField.modulus (f : CounterField) : Nat := 2 ^ f.width

/-- The counter value currently seeded in the masked bits of byte `b`. -/
def CounterField.read (f : CounterField) (b : Nat) : Nat :=
  (b &&& f.mask) >>> f.shift

/-- Modelled from the spec: the successor of counter value `v` — advance by
`delta` modulo the representable range, and advance one extra step whenever
the naturally-next value equals `skip` (spec section 4.1). -/
def CounterField.next (f : CounterField) (v : Nat) : Nat :=
  let n := (v + f.delta) % f.modulus
  if n = f.skip then (n + f.delta) % f.modulus else n

/-- Modelled from the spec: `CounterField.update()` — mutate the masked bits
of the target byte in place to the next counter value, leaving the other
bits of that byte untouched (spec section 4.1). -/
def CounterField.updateByte (f : CounterField) (b : Nat) : Nat :=
  (b &&& (0xFF ^^^ f.mask)) ||| (f.next (f.read b) <<< f.shift)

/-- The alive-counter field used by all three telemetry messages:
`CounterField(self.data, 5, 0xF0, delta=1, skip=0xF)`. -/
def aliveField : CounterField :=
  { byte_offset := 5, mask := 0xF0, delta := 1, skip := 0xF }

/-- `SBox.output_voltage` (sbox-sim.py lines 72-88): synthesize the output
voltage from the contactor state.  `now` is the instant at which the
property is read. -/
noncomputable def output_voltage (st : SBoxState) (now : ℚ) : ℝ :=
  if st.contactor_setup then
    match st.pch_start with
    | some t0 =>
      (st.voltage : ℝ) * (1 - Real.exp (-((now - t0 : ℚ) : ℝ) / (PRECHARGE_RC : ℝ)))
    | none =>
      if (st.pos_contactor_closed || st.pch_contactor_closed) &&
          st.neg_contactor_closed then
        (st.voltage : ℝ)
      else 0
  else 0

/-! ## Helper lemmas -/

/-- The rate bookkeeping step touches only the counter fields. -/
theorem update_msg_rate_fields (st : SBoxState) (sec : Int) :
    (update_msg_rate st sec).voltage = st.voltage ∧
    (update_msg_rate st sec).current = st.current ∧
    (update_msg_rate st sec).pos_contactor_closed = st.pos_contactor_closed ∧
    (update_msg_rate st sec).neg_contactor_closed = st.neg_contactor_closed ∧
    (update_msg_rate st sec).pch_contactor_closed = st.pch_contactor_closed ∧
    (update_msg_rate st sec).contactor_setup = st.contactor_setup ∧
    (update_msg_rate st sec).pch_start = st.pch_start := by
  by_cases h : sec ≠ st.last_sec <;> simp [update_msg_rate, h]

/-- A frame with identifier 0x100 is dispatched to the contactor-control
handler after the rate bookkeeping. -/
theorem on_message_0x100 (st : SBoxState) (m : CanMsg) (now : ℚ) (sec : Int)
    (hid : m.arbitration_id = 0x100) :
    on_message st m now sec = on_control_contactors (update_msg_rate st sec) m now := by
  unfold on_message
  rw [hid]

/-- Effect of the 0xA6 command branch of the contactor-control handler. -/
theorem on_control_A6 (st : SBoxState) (m : CanMsg) (now : ℚ)
    (hlen : m.dlc = 4) (hcmd : m.data.headD 0 = 0xA6) :
    (on_control_contactors st m now) =
      ({ st with pos_contactor_closed := false, neg_contactor_closed := true,
                 pch_contactor_closed := true,
                 pch_start :=
                   if (!st.pos_contactor_closed) ∧ (!st.neg_contactor_closed) ∧
                       (!st.pch_contactor_closed) then some now
                   else st.pch_start }, []) := by
  unfold on_control_contactors
  rw [hcmd, hlen]
  simp

/-- A full `on_message` step preserves the precharge-timestamp invariant. -/
theorem pchInv_on_message (st : SBoxState) (m : CanMsg) (now : ℚ) (sec : Int)
    (h : st.pch_start ≠ none →
      st.pos_contactor_closed = false ∧ st.neg_contactor_closed = true ∧
        st.pch_contactor_closed = true) :
    (on_message st m now sec).1.pch_start ≠ none →
      (on_message st m now sec).1.pos_contactor_closed = false ∧
      (on_message st m now sec).1.neg_contactor_closed = true ∧
      (on_message st m now sec).1.pch_contactor_closed = true := by
  obtain ⟨-, -, h3, h4, h5, -, h7⟩ := update_msg_rate_fields st sec
  unfold on_message
  dsimp only
  split
  · unfold on_control_contactors
    split
    · intro hne
      rw [h3, h4, h5]
      exact h (by rwa [h7] at hne)
    · split <;> simp
  · unfold on_setup_contactors
    split <;>
      (intro hne
       simp only at hne ⊢
       rw [h3, h4, h5]
       exact h (by rwa [h7] at hne))
  · intro hne
    rw [h3, h4, h5]
    exact h (by rwa [h7] at hne)

/-- The precharge-timestamp invariant is preserved along any run. -/
theorem pchInv_run (evs : List (CanMsg × ℚ × Int)) (st : SBoxState)
    (h : st.pch_start ≠ none →
      st.pos_contactor_closed = false ∧ st.neg_contactor_closed = true ∧
        st.pch_contactor_closed = true) :
    (run_messages st evs).pch_start ≠ none →
      (run_messages st evs).pos_contactor_closed = false ∧
      (run_messages st evs).neg_contactor_closed = true ∧
      (run_messages st evs).pch_contactor_closed = true := by
  induction evs generalizing st with
  | nil => exact h
  | cons e rest ih =>
    exact ih ((on_message st e.1 e.2.1 e.2.2).1)
      (pchInv_on_message st e.1 e.2.1 e.2.2 h)

/-- The rate-counter fields of a full `on_message` step coincide with those
of the bare rate bookkeeping: no dispatch target touches them. -/
theorem on_message_rate_fields (st : SBoxState) (m : CanMsg) (now : ℚ) (sec : Int) :
    (on_message st m now sec).1.msgs_per_sec = (update_msg_rate st sec).msgs_per_sec ∧
    (on_message st m now sec).1.new_msgs = (update_msg_rate st sec).new_msgs ∧
    (on_message st m now sec).1.last_sec = (update_msg_rate st sec).last_sec := by
  unfold on_message
  dsimp only
  split
  · unfold on_control_contactors
    split
    · exact ⟨rfl, rfl, rfl⟩
    · split <;> simp
  · unfold on_setup_contactors
    split <;> simp
  · exact ⟨rfl, rfl, rfl⟩

/-- Messages arriving within the observed second only accumulate. -/
theorem run_same_sec (m : CanMsg) (now : ℚ) (s : Int) (k : Nat) :
    ∀ st : SBoxState, st.last_sec = s →
      (run_messages st (List.replicate k (m, now, s))).msgs_per_sec = st.msgs_per_sec ∧
      (run_messages st (List.replicate k (m, now, s))).new_msgs = st.new_msgs + k ∧
      (run_messages st (List.replicate k (m, now, s))).last_sec = s := by
  induction k with
  | zero => intro st hls; exact ⟨rfl, rfl, hls⟩
  | succ k ih =>
    intro st hls
    rw [List.replicate_succ]
    have hstep := on_message_rate_fields st m now s
    have hrate : (update_msg_rate st s).msgs_per_sec = st.msgs_per_sec ∧
        (update_msg_rate st s).new_msgs = st.new_msgs + 1 ∧
        (update_msg_rate st s).last_sec = s := by
      simp [update_msg_rate, hls]
    have h1 : (run_messages st ((m, now, s) :: List.replicate k (m, now, s))) =
        run_messages ((on_message st m now s).1) (List.replicate k (m, now, s)) := rfl
    rw [h1]
    obtain ⟨e1, e2, e3⟩ := ih ((on_message st m now s).1)
      (by rw [hstep.2.2, hrate.2.2])
    refine ⟨?_, ?_, e3⟩
    · rw [e1, hstep.1, hrate.1]
    · rw [e2, hstep.2.1, hrate.2.1]
      omega

set_option maxRecDepth 4000 in
/-- `updateByte` stays within a byte, commutes with `read`, and seeds read
below 16 — checked over all 256 byte values. -/
theorem alive_byte_facts : ∀ b < 256, aliveField.updateByte b < 256 ∧
    aliveField.read (aliveField.updateByte b) = aliveField.next (aliveField.read b) ∧
    aliveField.read b < 16 := by decide

/-- The successor of any representable counter value avoids the sentinel. -/
theorem alive_next_facts : ∀ v < 16, aliveField.next v < 15 := by decide

/-- Every non-sentinel value is reached within the first 15 steps. -/
theorem alive_next_cover : ∀ v < 16, ∀ w < 15, ∃ k, k < 16 ∧ 1 ≤ k ∧
    aliveField.next^[k] v = w := by decide

/-- No two distinct steps of the first period agree. -/
theorem alive_next_distinct : ∀ v < 16, ∀ i < 16, ∀ j < 16,
    ¬(1 ≤ i ∧ i < j ∧ aliveField.next^[i] v = aliveField.next^[j] v) := by decide

/-- Step 16 repeats step 1: the counter has period 15. -/
theorem alive_next16 : ∀ v < 16, aliveField.next^[16] v = aliveField.next^[1] v := by
  decide

/-- Iterated byte updates track iterated value successors. -/
theorem alive_iter_read (b : Nat) (hb : b < 256) (k : Nat) :
    aliveField.updateByte^[k] b < 256 ∧
    aliveField.read (aliveField.updateByte^[k] b)
      = aliveField.next^[k] (aliveField.read b) := by
  induction k with
  | zero => exact ⟨hb, rfl⟩
  | succ k ih =>
    rw [Function.iterate_succ_apply', Function.iterate_succ_apply']
    obtain ⟨h1, h2⟩ := ih
    obtain ⟨g1, g2, -⟩ := alive_byte_facts _ h1
    exact ⟨g1, by rw [g2, h2]⟩

/-- After at least one update the counter value never reaches 15. -/
theorem alive_never_skip_val (v : Nat) (hv : v < 16) :
    ∀ k, 1 ≤ k → aliveField.next^[k] v < 15 := by
  intro k hk
  induction k with
  | zero => omega
  | succ k ih =>
    cases Nat.eq_zero_or_pos k with
    | inl h0 =>
      subst h0
      rw [Function.iterate_one]
      exact alive_next_facts v hv
    | inr hpos =>
      have hlt := ih hpos
      rw [Function.iterate_succ_apply']
      exact alive_next_facts _ (by omega)

/-! ## Claims -/

/-- Claim C1: for every 4-byte control frame on identifier 0x100 with
command byte 0xA6, processing leaves pos open, neg closed, pch closed; the
precharge start timestamp is set to the current time exactly when all three
contactors were open immediately before the command, and is left unchanged
(same start instant) otherwise. -/
theorem cmd_A6_precharge_start (st : SBoxState) (m : CanMsg) (now : ℚ) (sec : Int)
    (hid : m.arbitration_id = 0x100) (hlen : m.dlc = 4)
    (hcmd : m.data.headD 0 = 0xA6) :
    (on_message st m now sec).1.pos_contactor_closed = false ∧
    (on_message st m now sec).1.neg_contactor_closed = true ∧
    (on_message st m now sec).1.pch_contactor_closed = true ∧
    ((st.pos_contactor_closed = false ∧ st.neg_contactor_closed = false ∧
        st.pch_contactor_closed = false) →
      (on_message st m now sec).1.pch_start = some now) ∧
    (¬(st.pos_contactor_closed = false ∧ st.neg_contactor_closed = false ∧
        st.pch_contactor_closed = false) →
      (on_message st m now sec).1.pch_start = st.pch_start) := by
  rw [on_message_0x100 st m now sec hid, on_control_A6 _ m now hlen hcmd]
  obtain ⟨-, -, h3, h4, h5, -, h7⟩ := update_msg_rate_fields st sec
  refine ⟨rfl, rfl, rfl, ?_, ?_⟩
  · intro h
    simp [h3, h4, h5, h.1, h.2.1, h.2.2]
  · intro h
    simp only [h3, h4, h5, h7, Bool.not_eq_true']
    rw [if_neg h]

/-- Witness for C1: a 0xA6 frame against the all-open initial state starts
the precharge timer at the current instant. -/
theorem cmd_A6_precharge_start_witness :
    (on_message initSBox ⟨0x100, [0xA6, 0, 0, 0]⟩ 3 0).1.pch_start = some 3 :=
  (cmd_A6_precharge_start initSBox ⟨0x100, [0xA6, 0, 0, 0]⟩ 3 0 (by decide)
    (by decide) (by decide)).2.2.2.1 (by decide)

/-- Counterexample to C2 as stated: a 3-byte frame on the setup channel is
not ignored — it changes `contactor_setup` (from true to false). -/
theorem setup_wrong_length_not_ignored_cex :
    (on_setup_contactors { initSBox with contactor_setup := true }
        ⟨0x300, [1, 2, 3]⟩).contactor_setup ≠
      ({ initSBox with contactor_setup := true } : SBoxState).contactor_setup := by
  decide

/-- Claim C2 (amended): the setup handler sets `contactor_setup` to true
exactly when the frame is 4 bytes equal to FF FE FF FF, and to false for
every other frame — including frames whose length is not 4, which are not
ignored; no other field of the state is changed by the handler. -/
theorem setup_gate_characterisation (st : SBoxState) (m : CanMsg) :
    (on_setup_contactors st m).contactor_setup
        = decide (m.dlc = 4 ∧ m.data = [0xFF, 0xFE, 0xFF, 0xFF]) ∧
    { on_setup_contactors st m with contactor_setup := st.contactor_setup } = st := by
  unfold on_setup_contactors
  split
  · rename_i h
    simp [h]
  · rename_i h
    simp [h]

/-- Claim C3: `output_voltage` is defined by exactly the ordered cases: 0
when the setup gate is off; the exponential precharge curve
`V * (1 - exp(-elapsed / RC))` when the precharge timer is active, with RC
the fixed product of precharge resistance and inverter capacitance; the
nominal source voltage when (pos or pch) and neg are closed; else 0. -/
theorem output_voltage_cases (st : SBoxState) (now : ℚ) :
    (st.contactor_setup = false → output_voltage st now = 0) ∧
    (∀ t0 : ℚ, st.contactor_setup = true → st.pch_start = some t0 →
      output_voltage st now =
        (st.voltage : ℝ) *
          (1 - Real.exp (-((now - t0 : ℚ) : ℝ) / (PRECHARGE_RC : ℝ))) ∧
      PRECHARGE_RC = PRECHARGE_RESISTOR * INVERTER_CAPACITANCE) ∧
    (st.contactor_setup = true → st.pch_start = none →
      ((st.pos_contactor_closed || st.pch_contactor_closed) &&
          st.neg_contactor_closed) = true →
      output_voltage st now = (st.voltage : ℝ)) ∧
    (st.contactor_setup = true → st.pch_start = none →
      ((st.pos_contactor_closed || st.pch_contactor_closed) &&
          st.neg_contactor_closed) = false →
      output_voltage st now = 0) := by
  unfold output_voltage
  refine ⟨fun h => by simp [h], fun t0 h hp => by simp [h, hp]; rfl,
    fun h hp hc => by simp [h, hp, hc], fun h hp hc => by simp [h, hp, hc]⟩

/-- Witness for C3: with the setup gate off the output voltage is 0. -/
theorem output_voltage_cases_witness : output_voltage initSBox 0 = 0 :=
  (output_voltage_cases initSBox 0).1 rfl

/-- Claim C4 (CounterField modelled from the spec; `message.py` is not
among the sources): for every starting byte, after each update the masked
bits never hold the skip value 0xF, every other 4-bit value is reached
within the first 15 updates, no two of the first 15 updates show the same
value, and update 16 repeats update 1 — the counter cycles through all
non-skip values before repeating. -/
theorem counter_never_skip_and_cycles (b : Nat) (hb : b < 256) :
    (∀ k, 1 ≤ k →
      aliveField.read (aliveField.updateByte^[k] b) ≠ aliveField.skip) ∧
    (∀ v < 15, ∃ k, 1 ≤ k ∧ k ≤ 15 ∧
      aliveField.read (aliveField.updateByte^[k] b) = v) ∧
    (∀ i j, 1 ≤ i → i < j → j ≤ 15 →
      aliveField.read (aliveField.updateByte^[i] b)
        ≠ aliveField.read (aliveField.updateByte^[j] b)) ∧
    aliveField.read (aliveField.updateByte^[16] b)
      = aliveField.read (aliveField.updateByte^[1] b) := by
  have hv : aliveField.read b < 16 := (alive_byte_facts b hb).2.2
  refine ⟨?_, ?_, ?_, ?_⟩
  · intro k hk
    rw [(alive_iter_read b hb k).2]
    have h15 := alive_never_skip_val _ hv k hk
    have hsk : aliveField.skip = 15 := rfl
    omega
  · intro v hv15
    obtain ⟨k, hk16, hk1, he⟩ := alive_next_cover _ hv v hv15
    exact ⟨k, hk1, by omega, by rw [(alive_iter_read b hb k).2]; exact he⟩
  · intro i j h1 hij hj15
    rw [(alive_iter_read b hb i).2, (alive_iter_read b hb j).2]
    intro he
    exact alive_next_distinct _ hv i (by omega) j (by omega) ⟨h1, hij, he⟩
  · rw [(alive_iter_read b hb 16).2, (alive_iter_read b hb 1).2]
    exact alive_next16 _ hv

/-- Witness for C4: one update of the byte 0xD9 leaves a non-skip value in
the counter nibble. -/
theorem counter_never_skip_and_cycles_witness :
    aliveField.read (aliveField.updateByte^[1] 217) ≠ aliveField.skip :=
  (counter_never_skip_and_cycles 217 (by decide)).1 1 (by decide)

/-- Claim C5: registering a frame whose arbitration identifier is already
present fails with the fatal DuplicateIdentifier error; registering a frame
with a fresh identifier succeeds and stores the frame keyed by that
identifier. -/
theorem register_duplicate_identifier (reg : List (Nat × PeriodicMessage))
    (m : PeriodicMessage) :
    ((∃ p ∈ reg, p.1 = m.arbitration_id) →
      register reg m = Except.error RegError.DuplicateIdentifier) ∧
    ((∀ p ∈ reg, p.1 ≠ m.arbitration_id) →
      register reg m = Except.ok (reg ++ [(m.arbitration_id, m)]) ∧
      regLookup (reg ++ [(m.arbitration_id, m)]) m.arbitration_id = some m) := by
  constructor
  · rintro ⟨p, hp, he⟩
    unfold register
    rw [if_pos]
    exact List.any_eq_true.mpr ⟨p, hp, by simp [he]⟩
  · intro hall
    have hnone : reg.any (fun p => p.1 = m.arbitration_id) = false := by
      rw [List.any_eq_false]
      intro p hp
      simp [hall p hp]
    unfold register
    rw [if_neg (by simp [hnone])]
    refine ⟨rfl, ?_⟩
    unfold regLookup
    rw [List.find?_append]
    have hfnone : reg.find? (fun p => p.1 = m.arbitration_id) = none := by
      rw [List.find?_eq_none]
      intro p hp
      simp [hall p hp]
    rw [hfnone]
    simp

/-- Witness for C5: registering a second frame under identifier 0x200
fails with DuplicateIdentifier. -/
theorem register_duplicate_identifier_witness :
    register [(0x200, (⟨0x200, [2], 100⟩ : PeriodicMessage))] ⟨0x200, [1], 100⟩
      = Except.error RegError.DuplicateIdentifier :=
  (register_duplicate_identifier [(0x200, ⟨0x200, [2], 100⟩)] ⟨0x200, [1], 100⟩).1
    ⟨(0x200, ⟨0x200, [2], 100⟩), by simp, rfl⟩

/-- Claim C6: a 4-byte control frame whose command byte is not one of 0x00,
0xA6, 0xAA, 0x86, 0x0A, 0x62 is non-fatal: the condition is reported as a
diagnostic, all three contactors are opened and the precharge timer is
cleared. -/
theorem unrecognised_command_safe (st : SBoxState) (m : CanMsg) (now : ℚ) (sec : Int)
    (hid : m.arbitration_id = 0x100) (hlen : m.dlc = 4)
    (hcmd : m.data.headD 0 ∉ [0x00, 0xA6, 0xAA, 0x86, 0x0A, 0x62]) :
    (on_message st m now sec).1.pos_contactor_closed = false ∧
    (on_message st m now sec).1.neg_contactor_closed = false ∧
    (on_message st m now sec).1.pch_contactor_closed = false ∧
    (on_message st m now sec).1.pch_start = none ∧
    (on_message st m now sec).2 = [Diag.unrecognisedContactorControl (m.data.headD 0)] := by
  rw [on_message_0x100 st m now sec hid]
  unfold on_control_contactors
  simp only [hlen]
  simp only [List.mem_cons, List.not_mem_nil] at hcmd
  push_neg at hcmd
  split <;> simp_all

/-- Witness for C6: command byte 0x55 yields the all-open disarmed state
and an unrecognised-command diagnostic. -/
theorem unrecognised_command_safe_witness :
    (on_message initSBox ⟨0x100, [0x55, 0, 0, 0]⟩ 0 0).2
      = [Diag.unrecognisedContactorControl 0x55] :=
  (unrecognised_command_safe initSBox ⟨0x100, [0x55, 0, 0, 0]⟩ 0 0 (by decide)
    (by decide) (by decide)).2.2.2.2

/-- Claim C7: packing a signed milli-unit value with `struct.pack` and
re-reading the first 3 little-endian bytes with sign extension yields the
original value truncated to 24 bits. -/
theorem pack_s24_roundtrip (x : Int) (bs : List Nat)
    (h : struct_pack_le_i x = some bs) :
    read_s24_le (bs.take 3) = trunc24 x := by
  unfold struct_pack_le_i at h
  split at h
  · rename_i hr
    injection h with h
    subst h
    unfold read_s24_le trunc24
    simp only [List.take_succ_cons, List.take_zero, List.getD_cons_zero,
      List.getD_cons_succ]
    split <;> omega
  · exact absurd h (by simp)

/-- Witness for C7: the packed bytes of -12345 read back as -12345. -/
theorem pack_s24_roundtrip_witness :
    read_s24_le ([199, 207, 255, 255].take 3) = trunc24 (-12345) :=
  pack_s24_roundtrip (-12345) [199, 207, 255, 255] (by decide)

/-- Claim C8: the packing step of the telemetry updates writes exactly
payload bytes 0, 1 and 2 — the low 3 little-endian bytes of the 4-byte
signed representation — and leaves every other payload byte, including
the counter byte 5, unchanged. -/
theorem pack_writes_only_first3 (x : Int) (data d : List Nat)
    (h : pack3_into x data = some d) :
    d.getD 0 0 = ((x % 2 ^ 32).toNat) % 256 ∧
    d.getD 1 0 = ((x % 2 ^ 32).toNat / 256) % 256 ∧
    d.getD 2 0 = ((x % 2 ^ 32).toNat / 65536) % 256 ∧
    ∀ i, 3 ≤ i → d.getD i 0 = data.getD i 0 := by
  unfold pack3_into at h
  cases hsp : struct_pack_le_i x with
  | none =>
    rw [hsp] at h
    exact absurd h (by simp)
  | some bs =>
    rw [hsp] at h
    unfold struct_pack_le_i at hsp
    split at hsp
    · injection hsp with hsp
      subst hsp
      simp only [Option.map_some'] at h
      injection h with h
      subst h
      refine ⟨rfl, rfl, rfl, ?_⟩
      intro i hi
      rw [List.getD_eq_getElem?_getD, List.getD_eq_getElem?_getD]
      have hlen : (List.take 3 [(x % 2 ^ 32).toNat % 256,
          (x % 2 ^ 32).toNat / 256 % 256, (x % 2 ^ 32).toNat / 65536 % 256,
          (x % 2 ^ 32).toNat / 16777216 % 256]).length = 3 := rfl
      rw [List.getElem?_append_right (by rw [hlen]; omega)]
      rw [hlen, List.getElem?_drop]
      have hidx : 3 + (i - 3) = i := by omega
      rw [hidx]
    · exact absurd hsp (by simp)

/-- Witness for C8: packing -2000 mA into an 8-byte payload leaves the
counter byte 5 untouched. -/
theorem pack_writes_only_first3_witness :
    ([48, 248, 255, 9, 9, 7, 9, 9] : List Nat).getD 5 0
      = ([9, 9, 9, 9, 9, 7, 9, 9] : List Nat).getD 5 0 :=
  (pack_writes_only_first3 (-2000) [9, 9, 9, 9, 9, 7, 9, 9]
    [48, 248, 255, 9, 9, 7, 9, 9] (by decide)).2.2.2 5 (by decide)

/-- Counterexample to C9 as stated: after messages in seconds 100, 100 and
102, the published counter is 2, not the count of messages received in the
prior wall-clock second 101 (which is 0); the reset happens at the first
message of a new observed second, not exactly once per second boundary. -/
theorem msg_rate_prior_second_cex :
    (run_messages initSBox
        [(⟨0x123, []⟩, 0, 100), (⟨0x123, []⟩, 0, 100), (⟨0x123, []⟩, 0, 102)]).msgs_per_sec ≠
      countInSec [(⟨0x123, []⟩, 0, 100), (⟨0x123, []⟩, 0, 100), (⟨0x123, []⟩, 0, 102)]
        (102 - 1) := by
  decide

/-- Claim C9 (amended): the counter accumulates messages arriving within
the current observed second without touching the published value; at the
first message whose observed second differs, the published value becomes
the number of messages accumulated since the previous reset plus the
triggering message, and the accumulator restarts — so the reset happens
once per change of observed second, not exactly once per wall-clock
boundary, and the published value counts the prior traffic plus one. -/
theorem msg_rate_accumulate_publish (st : SBoxState) (m : CanMsg) (now : ℚ)
    (s s' : Int) (k : Nat) (h0 : st.new_msgs = 0) (h1 : st.last_sec = s)
    (hne : s' ≠ s) :
    (run_messages st (List.replicate k (m, now, s))).msgs_per_sec = st.msgs_per_sec ∧
    (run_messages st (List.replicate k (m, now, s))).new_msgs = k ∧
    ((on_message (run_messages st (List.replicate k (m, now, s))) m now s').1).msgs_per_sec
        = k + 1 ∧
    ((on_message (run_messages st (List.replicate k (m, now, s))) m now s').1).new_msgs = 0 ∧
    ((on_message (run_messages st (List.replicate k (m, now, s))) m now s').1).last_sec = s' := by
  obtain ⟨e1, e2, e3⟩ := run_same_sec m now s k st h1
  have hstep := on_message_rate_fields (run_messages st (List.replicate k (m, now, s))) m now s'
  have hrate :
      (update_msg_rate (run_messages st (List.replicate k (m, now, s))) s').msgs_per_sec
          = (run_messages st (List.replicate k (m, now, s))).new_msgs + 1 ∧
      (update_msg_rate (run_messages st (List.replicate k (m, now, s))) s').new_msgs = 0 ∧
      (update_msg_rate (run_messages st (List.replicate k (m, now, s))) s').last_sec = s' := by
    simp [update_msg_rate, e3, hne]
  refine ⟨e1, by omega, ?_, ?_, ?_⟩
  · rw [hstep.1, hrate.1, e2, h0]
    omega
  · rw [hstep.2.1, hrate.2.1]
  · rw [hstep.2.2, hrate.2.2]

/-- Witness for C9 (amended): two messages in second 0 then one in second
7 publish a count of 3 and reset the accumulator. -/
theorem msg_rate_accumulate_publish_witness :
    (run_messages initSBox
        (List.replicate 2 ((⟨0x123, []⟩ : CanMsg), (0 : ℚ), (0 : Int)))).msgs_per_sec
      = initSBox.msgs_per_sec ∧
    (run_messages initSBox
        (List.replicate 2 ((⟨0x123, []⟩ : CanMsg), (0 : ℚ), (0 : Int)))).new_msgs = 2 ∧
    ((on_message (run_messages initSBox
        (List.replicate 2 ((⟨0x123, []⟩ : CanMsg), (0 : ℚ), (0 : Int))))
        ⟨0x123, []⟩ 0 7).1).msgs_per_sec = 3 ∧
    ((on_message (run_messages initSBox
        (List.replicate 2 ((⟨0x123, []⟩ : CanMsg), (0 : ℚ), (0 : Int))))
        ⟨0x123, []⟩ 0 7).1).new_msgs = 0 ∧
    ((on_message (run_messages initSBox
        (List.replicate 2 ((⟨0x123, []⟩ : CanMsg), (0 : ℚ), (0 : Int))))
        ⟨0x123, []⟩ 0 7).1).last_sec = 7 :=
  msg_rate_accumulate_publish initSBox ⟨0x123, []⟩ 0 0 7 2 rfl rfl (by decide)

/-- Claim C10: starting from the initial state, after any sequence of
inbound messages, whenever the precharge start timestamp is set the
contactor state is exactly pos open, neg closed, pch closed. -/
theorem precharge_timestamp_invariant (evs : List (CanMsg × ℚ × Int))
    (h : (run_messages initSBox evs).pch_start ≠ none) :
    (run_messages initSBox evs).pos_contactor_closed = false ∧
    (run_messages initSBox evs).neg_contactor_closed = true ∧
    (run_messages initSBox evs).pch_contactor_closed = true :=
  pchInv_run evs initSBox (by simp [initSBox]) h

/-- Witness for C10: after a single 0xA6 command the timestamp is set and
the contactors are in the precharge configuration. -/
theorem precharge_timestamp_invariant_witness :
    (run_messages initSBox [(⟨0x100, [0xA6, 0, 0, 0]⟩, 3, 0)]).neg_contactor_closed = true :=
  (precharge_timestamp_invariant [(⟨0x100, [0xA6, 0, 0, 0]⟩, 3, 0)] (by decide)).2.1
